import Mathlib

/-!
Verification development for the deluge-siphon background client
(`src/controller_actions.js`).

The source file contains two near-duplicate generations of the
`DelugeConnection` client, separated by a document marker:

* generation 1: lines 1 to 1623 (functions modelled here with suffix `1`);
* generation 2: lines 1624 to 3082 (suffix `2`).

The embedding is a shallow one.  The network is modelled by a `Script`, a
list of HTTP responses consumed in order, one per `fetch` performed by
`_request`; every outbound JSON-RPC call is recorded in a `Trace`.  Promise
resolution and rejection are modelled by `Except`; the mutual recursion
between `_request`, `_doLogin` and `_getSession` (re-login on
authentication failures) is made total with a `fuel` parameter, which only
matters when the recursion would actually be unbounded.  Identifiers
(`id` fields, derived from `Date.now()`), console logging and the `notify`
toast side effects are not modelled; neither are the session-cookie and
CSRF header fields, which do not influence any control flow modelled here.
-/

/-- JavaScript values as far as the client manipulates them. -/
inductive RVal where
  | null
  | bool (b : Bool)
  | str (s : String)
  | num (n : Int)
  | arr (xs : List RVal)
  | obj (fields : List (String × RVal))

/-- JavaScript truthiness for the values above. -/
def RVal.truthy : RVal → Bool
  | .null => false
  | .bool b => b
  | .str s => !(s == "")
  | .num n => !(n == 0)
  | .arr _ => true
  | .obj _ => true

/-- Property lookup `v.k`: the first binding of an object, `null`
(standing for `undefined`) otherwise. -/
def objGet (v : RVal) (k : String) : RVal :=
  match v with
  | .obj fs =>
    match fs.find? (fun kv => kv.1 == k) with
    | some kv => kv.2
    | none => .null
  | _ => .null

/-- Whether an object literal has a property with the given key
(`options.add_paused !== undefined` style checks). -/
def hasKey (fs : List (String × RVal)) (k : String) : Bool :=
  fs.any (fun kv => kv.1 == k)

/-- Assign a property: replace the binding if present, append otherwise
(`params.cookie = cookieHeader` style assignments). -/
def setKey (fs : List (String × RVal)) (k : String) (v : RVal) : List (String × RVal) :=
  if hasKey fs k then fs.map (fun kv => if kv.1 == k then (kv.1, v) else kv) else fs ++ [(k, v)]

/-- JavaScript strict equality `===` restricted to the primitive shapes the
client compares (`h[0] === hostId`).  Arrays and objects compare by
reference in JavaScript; the model has no object identity, so they compare
unequal here. -/
def jsStrictEq : RVal → RVal → Bool
  | .null, .null => true
  | .bool a, .bool b => a == b
  | .str a, .str b => a == b
  | .num a, .num b => a == b
  | _, _ => false

/-- First element of a JavaScript array value, `null` when absent. -/
def elemAt (v : RVal) (i : Nat) : RVal :=
  match v with
  | .arr xs => (xs.drop i).headD .null
  | _ => .null

/-- List-of-characters test: does the first list start with the second. -/
def startsL : List Char → List Char → Bool
  | _, [] => true
  | [], _ :: _ => false
  | c :: cs, p :: ps => c == p && startsL cs ps

/-- `String.startsWith`, computed on the character lists so that the kernel
can evaluate it. -/
def strStarts (s p : String) : Bool := startsL s.data p.data

/-- Substring containment on character lists. -/
def hasSubL : List Char → List Char → Bool
  | hay, pat =>
    if startsL hay pat then true
    else
      match hay with
      | [] => false
      | _ :: rest => hasSubL rest pat

/-- JavaScript `String.prototype.includes`, computed on character lists. -/
def hasSub (s p : String) : Bool := hasSubL s.data p.data

/-- One HTTP exchange as the client observes it: the HTTP status of the
response, and the decoded JSON body, of which the client inspects the
`error` field (its `message` string), a possible `status` field (checked by
the second-generation `_request`), and the `result` field. -/
structure HttpResp where
  status : Nat
  error : Option String
  bstatus : Option Nat
  result : RVal

/-- The JSON payload handed to a resolved `_request` caller. -/
structure Payload where
  error : Option String
  bstatus : Option Nat
  result : RVal

/-- A rejected promise carries an `Error`; `_addTorrentViaUrl` additionally
sets a `code` property on some errors, which the first-generation
`_addTorrentUrlToServer` inspects. -/
structure JErr where
  msg : String
  code : Option Nat
deriving DecidableEq

/-- Events observable at the boundary of the client: an outbound JSON-RPC
call (method and positional params; the `id` field is time-derived and not
modelled), or a direct fetch of a torrent file carrying a site cookie
header (the spec-modelled `_downloadTorrent`). -/
inductive Ev where
  | rpc (method : String) (params : List RVal)
  | fileFetch (url : String) (cookieHeader : String)

/-- Planned network responses, consumed one per `fetch`. -/
abbrev Script := List HttpResp

/-- Events emitted so far. -/
abbrev Trace := List Ev

/-- Model of one promise-producing step: outcome, remaining script,
extended trace. -/
abbrev Res (α : Type) := Except JErr α × Script × Trace

/-- Promise `then` chaining: on rejection the continuation is skipped. -/
def bindR {α β : Type} (r : Res α) (f : α → Script → Trace → Res β) : Res β :=
  match r with
  | (.ok a, s, t) => f a s t
  | (.error e, s, t) => (.error e, s, t)

/-- Promise `catch` chaining: on resolution the handler is skipped. -/
def catchR {α : Type} (r : Res α) (f : JErr → Script → Trace → Res α) : Res α :=
  match r with
  | (.ok a, s, t) => (.ok a, s, t)
  | (.error e, s, t) => f e s t

/-- Forget the resolved value (the `_connect` chains discard intermediate
values). -/
def dropR {α : Type} (r : Res α) : Res Unit :=
  match r with
  | (.ok _, s, t) => (.ok (), s, t)
  | (.error e, s, t) => (.error e, s, t)

/-- An error without a `code` property. -/
def errMsg (m : String) : JErr := ⟨m, none⟩

/-- `response.ok`: HTTP status in the 2xx range. -/
def httpOk (r : HttpResp) : Bool := decide (200 ≤ r.status) && decide (r.status < 300)

/-- Methods of the JSON-RPC calls in a trace, in order. -/
def rpcMethods (tr : Trace) : List String :=
  tr.filterMap (fun e => match e with | .rpc m _ => some m | _ => none)

/-- How many calls to a given method a trace contains. -/
def countMethod (tr : Trace) (m : String) : Nat :=
  (tr.filter (fun e => match e with | .rpc m2 _ => m2 == m | _ => false)).length

/-- Whether a trace contains a direct torrent-file fetch. -/
def hasFetch (tr : Trace) : Bool :=
  tr.any (fun e => match e with | .fileFetch _ _ => true | _ => false)

/-- First positional parameter of the first call to a given method. -/
def firstParamOf (tr : Trace) (m : String) : Option RVal :=
  (tr.filterMap (fun e =>
    match e with
    | .rpc m2 ps => if m2 == m then ps.head? else none
    | _ => none)).head?

/-- Shorthand for a 2xx response with a plain `result`. -/
def okResp (v : RVal) : HttpResp := ⟨200, none, none, v⟩

/-- Shorthand for a 2xx response whose body carries an `error` message. -/
def errBody (m : String) : HttpResp := ⟨200, some m, none, .null⟩

/-- Shorthand for a non-2xx response with the given HTTP status. -/
def httpErr (n : Nat) : HttpResp := ⟨n, none, none, .null⟩

/-- One stored connection record (`connections` entries `{url, pass}`). -/
structure Conn where
  url : String
  pass : String

/-- Second-generation `_isAuthError` (lines 2642 to 2647): an error message
matching one of three authentication-failure patterns. -/
def isAuthError2 (error : Option String) : Bool :=
  match error with
  | some m => hasSub m "Not authenticated" || hasSub m "Invalid session" || hasSub m "No session exists"
  | none => false

mutual

/-- Second-generation `_request` (lines 1892 to 2038).  One `fetch` is one
script entry.  On HTTP 403 for a method not containing `torrent` it
re-authenticates via `_getSession` and replays the same call; a 2xx body
with an `error` field rejects with its message; a 2xx body with a `status`
of 403 rejects with the access-denied message; the `_isAuthError` re-login
branch is kept even though it sits below the unconditional `error` throw.
The `fuel` argument only bounds the re-login recursion. -/
def request2 : Nat → Option String → String → List RVal → Script → Trace → Res Payload
  | 0, _, _, _, script, trace => (.error (errMsg "model: fuel exhausted"), script, trace)
  | fuel+1, pass, method, params, script, trace =>
    match script with
    | [] => (.error (errMsg "model: no response"), [], trace ++ [.rpc method params])
    | r :: rest =>
      let trace2 := trace ++ [.rpc method params]
      if httpOk r then
        match r.error with
        | some m => (.error (errMsg (if m == "" then "Unknown server error" else m)), rest, trace2)
        | none =>
          if r.bstatus == some 403 then
            (.error (errMsg "Access denied by remote server"), rest, trace2)
          else if isAuthError2 none then
            bindR (getSession2 fuel pass rest trace2) (fun _ s t => request2 fuel pass method params s t)
          else
            (.ok ⟨none, r.bstatus, r.result⟩, rest, trace2)
      else
        if r.status == 403 && !(hasSub method "torrent") then
          bindR (getSession2 fuel pass rest trace2) (fun _ s t => request2 fuel pass method params s t)
        else
          (.error (errMsg ("HTTP error! status: " ++ toString r.status)), rest, trace2)

/-- Second-generation `_getSession` (lines 2125 to 2139): probe
`auth.check_session`; a strict-equality `true` result is a valid session,
any other resolved payload falls through to `_doLogin`. -/
def getSession2 : Nat → Option String → Script → Trace → Res RVal
  | 0, _, script, trace => (.error (errMsg "model: fuel exhausted"), script, trace)
  | fuel+1, pass, script, trace =>
    bindR (request2 fuel pass "auth.check_session" [] script trace) (fun p s t =>
      match p.result with
      | .bool true => (.ok (.bool true), s, t)
      | _ => doLogin2 fuel pass s t)

/-- Second-generation `_doLogin` (lines 2141 to 2178): reject when no
password is stored; `auth.login` with the password; on a truthy result,
verify the session with one `_getSession` before resolving with the login
result; otherwise reject. -/
def doLogin2 : Nat → Option String → Script → Trace → Res RVal
  | 0, _, script, trace => (.error (errMsg "model: fuel exhausted"), script, trace)
  | fuel+1, pass, script, trace =>
    match pass with
    | none => (.error (errMsg "No password available"), script, trace)
    | some pw =>
      bindR (request2 fuel (some pw) "auth.login" [.str pw] script trace) (fun p s t =>
        if p.result.truthy then
          bindR (getSession2 fuel (some pw) s t) (fun _ s2 t2 => (.ok p.result, s2, t2))
        else
          (.error (errMsg "Login failed - check your Deluge password"), s, t))

end

/-- Second-generation `_checkDaemonConnection` (lines 2180 to 2194):
`web.connected`, resolving `true` exactly on a strict-equality `true`
result. -/
def checkDaemon2 (fuel : Nat) (pass : Option String) (script : Script) (trace : Trace) : Res Bool :=
  bindR (request2 fuel pass "web.connected" [] script trace) (fun p s t =>
    match p.result with
    | .bool true => (.ok true, s, t)
    | _ => (.ok false, s, t))

/-- Second-generation `_getDaemons` (lines 2196 to 2207): `web.get_hosts`;
stores and resolves `payload.result || []`. -/
def getDaemons2 (fuel : Nat) (pass : Option String) (script : Script) (trace : Trace) : Res RVal :=
  bindR (request2 fuel pass "web.get_hosts" [] script trace) (fun p s t =>
    (.ok (if p.result.truthy then p.result else .arr []), s, t))

/-- The record built by the second-generation `_getHostStatus`. -/
structure DaemonInfo2 where
  status : RVal
  info : RVal
  hostId : RVal
  host : Option RVal

/-- Second-generation `_getHostStatus` (lines 2209 to 2232):
`web.get_host_status` for one host id; a falsy result rejects; otherwise
the result array is destructured as `[status, info]` and the matching row
of the stored host list is attached. -/
def getHostStatus2 (fuel : Nat) (pass : Option String) (daemonHosts : List RVal) (hostId : RVal)
    (script : Script) (trace : Trace) : Res DaemonInfo2 :=
  bindR (request2 fuel pass "web.get_host_status" [hostId] script trace) (fun p s t =>
    if p.result.truthy then
      (.ok ⟨elemAt p.result 0, elemAt p.result 1, hostId,
            daemonHosts.find? (fun h => jsStrictEq (elemAt h 0) hostId)⟩, s, t)
    else
      (.error (errMsg "Failed to get host status"), s, t))

/-- Second-generation `_connectDaemon` (lines 2295 to 2308): one
`web.connect` call for the host id, resolving `true`; a request rejection
is rethrown. -/
def connectDaemon2 (fuel : Nat) (pass : Option String) (info : DaemonInfo2)
    (script : Script) (trace : Trace) : Res Bool :=
  bindR (request2 fuel pass "web.connect" [info.hostId] script trace) (fun _ s t =>
    (.ok true, s, t))

/-- Second-generation `_startDaemon` (lines 2280 to 2293): one
`web.start_daemon` call for the host id, then `_connectDaemon`; a request
rejection is rethrown. -/
def startDaemon2 (fuel : Nat) (pass : Option String) (info : DaemonInfo2)
    (script : Script) (trace : Trace) : Res Bool :=
  bindR (request2 fuel pass "web.start_daemon" [info.hostId] script trace) (fun _ s t =>
    connectDaemon2 fuel pass info s t)

/-- What one daemon-host attempt resolves with: the `daemon_info` record
for an already `Connected` host, or the literal `true` that
`_connectDaemon` resolves with for the `Online` and `Offline` branches
(the source then stores that boolean into `DAEMON_INFO`). -/
inductive Adopt where
  | dinfo (d : DaemonInfo2)
  | flag (b : Bool)

/-- One iteration of the `daemon_hosts.reduce` body in the
second-generation `_getConnectedDaemon` (lines 2245 to 2276): query the
host status, then branch on `Connected`, `Online`, `Offline` or an unknown
status string. -/
def tryHost2 (fuel : Nat) (pass : Option String) (daemonHosts : List RVal) (row : RVal)
    (script : Script) (trace : Trace) : Res Adopt :=
  bindR (getHostStatus2 fuel pass daemonHosts (elemAt row 0) script trace) (fun di s t =>
    match di.status with
    | .str "Connected" => (.ok (.dinfo di), s, t)
    | .str "Online" =>
      bindR (connectDaemon2 fuel pass di s t) (fun b s2 t2 => (.ok (.flag b), s2, t2))
    | .str "Offline" =>
      bindR (startDaemon2 fuel pass di s t) (fun b s2 t2 => (.ok (.flag b), s2, t2))
    | _ => (.error (errMsg "Unknown daemon status"), s, t))

/-- The `reduce` fold of the second-generation `_getConnectedDaemon`: each
host row is wrapped in a `catch`, so a host is attempted only while the
accumulated promise is rejected; the first resolution short-circuits every
later handler. -/
def goHosts2 (fuel : Nat) (pass : Option String) (daemonHosts : List RVal) :
    List RVal → Res Adopt → Res Adopt
  | [], acc => acc
  | row :: rest, acc =>
    match acc with
    | (.ok v, s, t) => goHosts2 fuel pass daemonHosts rest (.ok v, s, t)
    | (.error _, s, t) => goHosts2 fuel pass daemonHosts rest (tryHost2 fuel pass daemonHosts row s t)

/-- Cache check `this.DAEMON_INFO?.host_id` at the top of
`_getConnectedDaemon`: only a stored record with a truthy host id
short-circuits. -/
def cacheHit (cache : Option Adopt) : Option DaemonInfo2 :=
  match cache with
  | some (.dinfo d) => if d.hostId.truthy then some d else none
  | _ => none

/-- Second-generation `_getConnectedDaemon` (lines 2234 to 2278): return
the cached daemon if present; reject when the host list is empty or not a
list; otherwise fold the hosts sequentially, seeded with a rejected
promise. -/
def getConnectedDaemon2 (fuel : Nat) (pass : Option String) (cache : Option Adopt) (daemonHosts : RVal)
    (script : Script) (trace : Trace) : Res Adopt :=
  match cacheHit cache with
  | some d => (.ok (.dinfo d), script, trace)
  | none =>
    match daemonHosts with
    | .arr (row :: rows) =>
      goHosts2 fuel pass (row :: rows) (row :: rows)
        ((.error (errMsg "Starting daemon connection attempts"), script, trace))
    | _ => (.error (errMsg "No daemons available"), script, trace)

/-- Second-generation `_getServerConfig` (lines 2310 to 2331):
`core.get_config`; a falsy result rejects; the one error message produced
by the body-`status` 403 path of `_request` is translated; the fetched
`allow_remote` value is never inspected. -/
def getServerConfig2 (fuel : Nat) (pass : Option String) (script : Script) (trace : Trace) : Res RVal :=
  catchR
    (bindR (request2 fuel pass "core.get_config" [] script trace) (fun p s t =>
      if p.result.truthy then (.ok p.result, s, t)
      else (.error (errMsg "No config result"), s, t)))
    (fun e s t =>
      if e.msg == "Access denied by remote server" then
        (.error (errMsg "Remote connections are not enabled on your Deluge server"), s, t)
      else
        (.error e, s, t))

/-- LabelPlus result postprocessing in `_getLabelsWithFallbacks` (lines
2473 to 2478): object values that are objects with a truthy `name`, mapped
to that name. -/
def labelPlusNames (v : RVal) : List RVal :=
  match v with
  | .obj fs =>
    (fs.filter (fun kv =>
      match kv.2 with
      | .obj _ => (objGet kv.2 "name").truthy
      | _ => false)).map (fun kv => objGet kv.2 "name")
  | _ => []

/-- Second-generation `_getLabelsWithFallbacks` (lines 2432 to 2487):
`label.get_labels`, then on failure `label.get_config`, then on failure
`labelplus.get_labels`, each wrapped in a `catch`; a final `catch` resolves
with the empty list. -/
def getLabelsWithFallbacks2 (fuel : Nat) (pass : Option String) (script : Script) (trace : Trace) : Res RVal :=
  catchR
    (catchR
      (catchR
        (bindR (request2 fuel pass "label.get_labels" [] script trace) (fun p s t =>
          match p.result with
          | .arr xs => (.ok (.arr xs), s, t)
          | _ =>
            match p.error with
            | some e => (.error (errMsg ("Standard method failed: " ++ e)), s, t)
            | none => (.ok (.arr []), s, t)))
        (fun _ s t =>
          bindR (request2 fuel pass "label.get_config" [] s t) (fun p s2 t2 =>
            if p.result.truthy then
              match objGet p.result "labels" with
              | .arr xs => (.ok (.arr xs), s2, t2)
              | _ => (.error (errMsg "Fallback 1 failed"), s2, t2)
            else (.error (errMsg "Fallback 1 failed"), s2, t2))))
      (fun _ s t =>
        bindR (request2 fuel pass "labelplus.get_labels" [] s t) (fun p s2 t2 =>
          if p.result.truthy then (.ok (.arr (labelPlusNames p.result)), s2, t2)
          else (.ok (.arr []), s2, t2))))
    (fun _ s t => (.ok (.arr []), s, t))

/-- Parameter-object construction shared by both generations of
`_addTorrentUrlToServer` (lines 1023 to 1050 and 2493 to 2521): the four
known options in a fixed order, then every remaining option passed through
verbatim. -/
def buildParams (options : Option (List (String × RVal))) : List (String × RVal) :=
  match options with
  | none => []
  | some opts =>
    let base :=
      (match opts.find? (fun kv => kv.1 == "add_paused") with
        | some kv => [("add_paused", RVal.bool kv.2.truthy)]
        | none => []) ++
      (match opts.find? (fun kv => kv.1 == "download_location") with
        | some kv => if kv.2.truthy then [("download_location", kv.2)] else []
        | none => []) ++
      (match opts.find? (fun kv => kv.1 == "move_completed") with
        | some kv => if kv.2.truthy then [("move_completed", RVal.bool kv.2.truthy)] else []
        | none => []) ++
      (match opts.find? (fun kv => kv.1 == "move_completed_path") with
        | some kv => if kv.2.truthy then [("move_completed_path", kv.2)] else []
        | none => [])
    base ++ opts.filter (fun kv => !(hasKey base kv.1))

/-- Characters `encodeURI` leaves unescaped: ASCII letters and digits plus
the mark and reserved sets. -/
def isUriSafe (c : Char) : Bool :=
  c.isAlpha || c.isDigit ||
    ['-', '_', '.', '!', '~', '*', Char.ofNat 39, '(', ')',
     ';', '/', '?', ':', '@', '&', '=', '+', '$', ',', '#'].contains c

/-- UTF-8 bytes of a code point. -/
def utf8Bytes (n : Nat) : List Nat :=
  if n < 128 then [n]
  else if n < 2048 then [192 + n / 64, 128 + n % 64]
  else if n < 65536 then [224 + n / 4096, 128 + (n / 64) % 64, 128 + n % 64]
  else [240 + n / 262144, 128 + (n / 4096) % 64, 128 + (n / 64) % 64, 128 + n % 64]

/-- Uppercase hexadecimal digit. -/
def hexDig (n : Nat) : Char :=
  if n < 10 then Char.ofNat (48 + n) else Char.ofNat (55 + n)

/-- JavaScript `encodeURI`: safe characters pass through, every other code
point is UTF-8 encoded and each byte written as a percent escape.  Note
that the percent sign itself is not in the safe set, so an already encoded
URI gets encoded again. -/
def encodeURI (s : String) : String :=
  ⟨s.data.flatMap (fun c =>
    if isUriSafe c then [c]
    else (utf8Bytes c.toNat).flatMap (fun b => ['%', hexDig (b / 16), hexDig (b % 16)]))⟩

/-- A payload as the value of a resolved promise (the version-mismatch
retry of `_addTorrentViaUrl` resolves with the raw payload of the second
call rather than with its `result`). -/
def payloadRVal (p : Payload) : RVal :=
  .obj [("error", match p.error with | some m => .str m | none => .null), ("result", p.result)]

/-- Second-generation `_addTorrentViaUrl` (lines 2556 to 2609): a truthy
`cookie` param is moved into a headers object; `core.add_torrent_url` is
called with `[url, params, headers]`; a resolved payload with an `error`
would trigger the one-shot Deluge 1.x retry with `[url, params, {}]` or
the distinct 403 error, and a `result` of `false` rejects. -/
def addTorrentViaUrl2 (fuel : Nat) (pass : Option String) (url : String)
    (params : List (String × RVal)) (script : Script) (trace : Trace) : Res RVal :=
  let cookieTruthy :=
    match (params.find? (fun kv => kv.1 == "cookie")) with
    | some kv => kv.2.truthy
    | none => false
  let headers : List (String × RVal) :=
    if cookieTruthy then
      match (params.find? (fun kv => kv.1 == "cookie")) with
      | some kv => [("Cookie", kv.2)]
      | none => []
    else []
  let params2 := if cookieTruthy then params.filter (fun kv => !(kv.1 == "cookie")) else params
  bindR (request2 fuel pass "core.add_torrent_url" [.str url, .obj params2, .obj headers] script trace)
    (fun p s t =>
      match p.error with
      | some m =>
        if hasSub m "takes exactly 3 arguments" || hasSub m "takes exactly three arguments" then
          bindR (request2 fuel pass "core.add_torrent_url" [.str url, .obj params2, .obj []] s t)
            (fun p2 s2 t2 => (.ok (payloadRVal p2), s2, t2))
        else if hasSub m "403 Forbidden" then
          (.error ⟨"Unable to access torrent - the site may require authentication or cookies", some 403⟩, s, t)
        else
          (.error (errMsg (if m == "" then "Failed to add torrent" else m)), s, t)
      | none =>
        match p.result with
        | .bool false => (.error (errMsg "Server refused torrent"), s, t)
        | v => (.ok v, s, t))

/-- Second-generation `_addTorrentUrlToServer` (lines 2490 to 2554).  The
returned promise may never settle: for a non-magnet URL the storage
callback only acts when `send_cookies !== false`, so with `send_cookies`
stored as `false` neither `resolve` nor `reject` is ever called; `none`
models that unsettled promise.  Cookies are serialized `name=value` pairs
joined with a semicolon and attached as the `cookie` param when
nonempty. -/
def addTorrentUrlToServer2 (fuel : Nat) (pass : Option String) (url : String)
    (options : Option (List (String × RVal))) (cookies : List (String × String))
    (sendCookies : Option Bool) (script : Script) (trace : Trace) : Option (Res RVal) :=
  let params := buildParams options
  let encodedUrl := if strStarts url "magnet:" then url else encodeURI url
  if strStarts url "magnet:" then
    some (addTorrentViaUrl2 fuel pass encodedUrl params script trace)
  else if !(sendCookies == some false) then
    let cookieString := String.intercalate "; " (cookies.map (fun kv => kv.1 ++ "=" ++ kv.2))
    let params2 := if cookieString == "" then params else setKey params "cookie" (.str cookieString)
    some (addTorrentViaUrl2 fuel pass encodedUrl params2 script trace)
  else
    none

/-- Second-generation `_processPluginOptions` (lines 2612 to 2639): resolve
immediately without plugins or a falsy torrent id; with a truthy `Label`
plugin value issue one `label.set_torrent` call whose failure is swallowed. -/
def processPluginOptions2 (fuel : Nat) (pass : Option String) (plugins : Option (List (String × RVal)))
    (torrentId : RVal) (script : Script) (trace : Trace) : Res Unit :=
  match plugins with
  | none => (.ok (), script, trace)
  | some ps =>
    if torrentId.truthy then
      if (objGet (.obj ps) "Label").truthy then
        catchR (dropR (request2 fuel pass "label.set_torrent" [torrentId, objGet (.obj ps) "Label"] script trace))
          (fun _ s t => (.ok (), s, t))
      else (.ok (), script, trace)
    else (.ok (), script, trace)

/-- Second-generation `_connect` (lines 1869 to 1890): re-read the stored
connections (`_initState`, lines 1695 to 1749); reject when no server URL
results; otherwise `_getSession` with a `catch` into `_doLogin`, then
`_checkDaemonConnection`, a `catch` into `_getDaemons` followed by
`_getConnectedDaemon`, and finally `_getServerConfig`. -/
def connect2 (fuel : Nat) (conns : List Conn) (cache : Option Adopt)
    (script : Script) (trace : Trace) : Res RVal :=
  match conns with
  | [] => (.error (errMsg "Server URL not set after initialization"), script, trace)
  | c :: _ =>
    let pass := some c.pass
    bindR
      (catchR
        (dropR (bindR
          (catchR (getSession2 fuel pass script trace) (fun _ s t => doLogin2 fuel pass s t))
          (fun _ s t => checkDaemon2 fuel pass s t)))
        (fun _ s t =>
          dropR (bindR (getDaemons2 fuel pass s t) (fun ds s2 t2 =>
            getConnectedDaemon2 fuel pass cache ds s2 t2))))
      (fun _ s t => getServerConfig2 fuel pass s t)

/-- Second-generation `addTorrent` (lines 1769 to 1825): reject when the
instance has no server URL; `_connect`, then `_addTorrentUrlToServer`,
then `_processPluginOptions` when a nonempty plugins object was passed,
resolving with the torrent id.  A never-settling inner promise makes the
whole operation never settle. -/
def addTorrent2 (fuel : Nat) (curUrl : Option String) (conns : List Conn) (cache : Option Adopt)
    (url : String) (cookies : List (String × String)) (plugins : Option (List (String × RVal)))
    (options : Option (List (String × RVal))) (sendCookies : Option Bool)
    (script : Script) (trace : Trace) : Option (Res RVal) :=
  match curUrl with
  | none => some (.error (errMsg "SERVER_URL is not set. Please configure it in the options."), script, trace)
  | some _ =>
    let pass := (conns.head?).map (fun c => c.pass)
    match connect2 fuel conns cache script trace with
    | (.error e, s, t) => some (.error e, s, t)
    | (.ok _, s, t) =>
      match addTorrentUrlToServer2 fuel pass url options cookies sendCookies s t with
      | none => none
      | some (.error e, s2, t2) => some (.error e, s2, t2)
      | some (.ok tid, s2, t2) =>
        match plugins with
        | some ps =>
          if 0 < ps.length then
            some (bindR (processPluginOptions2 fuel pass (some ps) tid s2 t2)
              (fun _ s3 t3 => (.ok tid, s3, t3)))
          else some (.ok tid, s2, t2)
        | none => some (.ok tid, s2, t2)

mutual

/-- First-generation `_request` (lines 296 to 447).  On HTTP 403 for a
method not containing `add_torrent` the session fields are cleared and one
`_doLogin` is followed by a replay of the same call.  A 2xx payload with an
`error` field never resolves: a message containing `403 Forbidden` on an
add-torrent method rejects with the distinct remote-access message, one
containing `Not authenticated` triggers `_doLogin` plus replay, and any
other message rejects verbatim. -/
def request1 : Nat → Option String → String → List RVal → Script → Trace → Res Payload
  | 0, _, _, _, script, trace => (.error (errMsg "model: fuel exhausted"), script, trace)
  | fuel+1, pass, method, params, script, trace =>
    match script with
    | [] => (.error (errMsg "model: no response"), [], trace ++ [.rpc method params])
    | r :: rest =>
      let trace2 := trace ++ [.rpc method params]
      if httpOk r then
        match r.error with
        | some m =>
          if hasSub m "403 Forbidden" && hasSub method "add_torrent" then
            (.error (errMsg "Remote server denied access - the site may require authentication"), rest, trace2)
          else if hasSub m "Not authenticated" then
            bindR (doLogin1 fuel pass rest trace2) (fun _ s t => request1 fuel pass method params s t)
          else
            (.error (errMsg (if m == "" then "Server error" else m)), rest, trace2)
        | none => (.ok ⟨none, r.bstatus, r.result⟩, rest, trace2)
      else
        if r.status == 403 && !(hasSub method "add_torrent") then
          bindR (doLogin1 fuel pass rest trace2) (fun _ s t => request1 fuel pass method params s t)
        else
          (.error (errMsg ("HTTP error! status: " ++ toString r.status)), rest, trace2)

/-- First-generation `_getSession` (lines 578 to 593): probe
`auth.check_session`; a truthy result resolves with it, anything else
rejects with the invalid-session error. -/
def getSession1 : Nat → Option String → Script → Trace → Res RVal
  | 0, _, script, trace => (.error (errMsg "model: fuel exhausted"), script, trace)
  | fuel+1, pass, script, trace =>
    bindR (request1 fuel pass "auth.check_session" [] script trace) (fun p s t =>
      if p.result.truthy then (.ok p.result, s, t)
      else (.error (errMsg "Invalid session"), s, t))

/-- First-generation `_doLogin` (lines 595 to 632): reject when no password
is stored; `auth.login`; on a truthy result verify with one `_getSession`
and resolve with the login result, otherwise reject. -/
def doLogin1 : Nat → Option String → Script → Trace → Res RVal
  | 0, _, script, trace => (.error (errMsg "model: fuel exhausted"), script, trace)
  | fuel+1, pass, script, trace =>
    match pass with
    | none => (.error (errMsg "No password available"), script, trace)
    | some pw =>
      bindR (request1 fuel (some pw) "auth.login" [.str pw] script trace) (fun p s t =>
        if p.result.truthy then
          bindR (getSession1 fuel (some pw) s t) (fun _ s2 t2 => (.ok p.result, s2, t2))
        else
          (.error (errMsg "Login failed - check your Deluge password"), s, t))

end

/-- First-generation `_checkDaemonConnection` (lines 634 to 650). -/
def checkDaemon1 (fuel : Nat) (pass : Option String) (script : Script) (trace : Trace) : Res Bool :=
  bindR (request1 fuel pass "web.connected" [] script trace) (fun p s t =>
    match p.result with
    | .bool true => (.ok true, s, t)
    | _ => (.ok false, s, t))

/-- First-generation `_getDaemons` (lines 652 to 668): `web.get_hosts`; a
truthy result resolves and is stored, a falsy one rejects. -/
def getDaemons1 (fuel : Nat) (pass : Option String) (script : Script) (trace : Trace) : Res RVal :=
  bindR (request1 fuel pass "web.get_hosts" [] script trace) (fun p s t =>
    if p.result.truthy then (.ok p.result, s, t)
    else (.error (errMsg "Failed to get daemons"), s, t))

/-- The record built by the first-generation `_getHostStatus` (lines 670 to
701): the result array is consumed by successive `shift` calls, using the
embedded address and port for the five-element Deluge 1.x shape and the
caller-supplied ones for the three-element 2.x shape. -/
structure DaemonInfo1 where
  host_id : RVal
  ip : RVal
  port : RVal
  status : RVal
  version : RVal

/-- First-generation `_getHostStatus`: `web.get_host_status` for one host
id; a falsy result rejects, otherwise the result array is parsed as
described on `DaemonInfo1`. -/
def getHostStatus1 (fuel : Nat) (pass : Option String) (hostId ip port : RVal)
    (script : Script) (trace : Trace) : Res DaemonInfo1 :=
  bindR (request1 fuel pass "web.get_host_status" [hostId] script trace) (fun p s t =>
    if p.result.truthy then
      let xs := match p.result with | .arr ys => ys | _ => []
      let hid := xs.headD .null
      let rest := xs.tail
      if 2 < rest.length then
        (.ok ⟨hid, rest.headD .null, (rest.drop 1).headD .null,
              (rest.drop 2).headD .null, (rest.drop 3).headD .null⟩, s, t)
      else
        (.ok ⟨hid, ip, port, rest.headD .null, (rest.drop 1).headD .null⟩, s, t)
    else
      (.error (errMsg "Failed to get host status"), s, t))

/-- First-generation `_startDaemon` (lines 749 to 765): `web.start_daemon`
with the daemon port; a resolved payload without an `error` field resolves
with the unchanged `daemon_info`. -/
def startDaemon1 (fuel : Nat) (pass : Option String) (info : DaemonInfo1)
    (script : Script) (trace : Trace) : Res DaemonInfo1 :=
  bindR (request1 fuel pass "web.start_daemon" [info.port] script trace) (fun p s t =>
    match p.error with
    | none => (.ok info, s, t)
    | some _ => (.error (errMsg "Failed to start daemon"), s, t))

/-- First-generation `_connectDaemon` (lines 767 to 811).  For a host whose
status is `Online` one `web.connect` call resolves with the info record.
For any other status the instance-level `CONNECT_ATTEMPTS` counter gates a
poll loop: at five or more attempts reject, otherwise increment, wait five
seconds, re-query the host status and recurse.  The wait is not modelled;
`fuel` bounds the loop exactly as the counter does. -/
def connectDaemon1 : Nat → Option String → DaemonInfo1 → Nat → Script → Trace → Res DaemonInfo1
  | 0, _, _, _, script, trace => (.error (errMsg "model: fuel exhausted"), script, trace)
  | fuel+1, pass, info, attempts, script, trace =>
    match info.status with
    | .str "Online" =>
      bindR (request1 fuel pass "web.connect" [info.host_id] script trace) (fun p s t =>
        match p.error with
        | none => (.ok info, s, t)
        | some _ => (.error (errMsg "Failed to connect to daemon"), s, t))
    | _ =>
      if 5 ≤ attempts then
        (.error (errMsg "Max connection attempts reached"), script, trace)
      else
        bindR (getHostStatus1 fuel pass info.host_id .null .null script trace) (fun info2 s t =>
          connectDaemon1 fuel pass info2 (attempts + 1) s t)

/-- One iteration of the `daemon_hosts.reduce` body in the
first-generation `_getConnectedDaemon` (lines 714 to 745): query the host
status with the id, address and port of the row, then branch on the status
string. -/
def tryHost1 (fuel : Nat) (pass : Option String) (row : RVal) (attempts : Nat)
    (script : Script) (trace : Trace) : Res DaemonInfo1 :=
  bindR (getHostStatus1 fuel pass (elemAt row 0) (elemAt row 1) (elemAt row 2) script trace)
    (fun di s t =>
      match di.status with
      | .str "Connected" => (.ok di, s, t)
      | .str "Online" => connectDaemon1 fuel pass di attempts s t
      | .str "Offline" =>
        bindR (startDaemon1 fuel pass di s t) (fun di2 s2 t2 =>
          connectDaemon1 fuel pass di2 attempts s2 t2)
      | _ => (.error (errMsg "Unknown daemon status"), s, t))

/-- The `reduce` fold of the first-generation `_getConnectedDaemon`:
identical catch-chaining to the second generation. -/
def goHosts1 (fuel : Nat) (pass : Option String) (attempts : Nat) :
    List RVal → Res DaemonInfo1 → Res DaemonInfo1
  | [], acc => acc
  | row :: rest, acc =>
    match acc with
    | (.ok v, s, t) => goHosts1 fuel pass attempts rest (.ok v, s, t)
    | (.error _, s, t) => goHosts1 fuel pass attempts rest (tryHost1 fuel pass row attempts s t)

/-- First-generation `_getConnectedDaemon` (lines 703 to 747): return the
cached record when its host id is truthy; reject on an empty host list;
otherwise fold the hosts sequentially, seeded with a rejected promise. -/
def getConnectedDaemon1 (fuel : Nat) (pass : Option String) (cache : Option DaemonInfo1)
    (attempts : Nat) (daemonHosts : RVal) (script : Script) (trace : Trace) : Res DaemonInfo1 :=
  match cache with
  | some d =>
    if d.host_id.truthy then (.ok d, script, trace)
    else
      match daemonHosts with
      | .arr (row :: rows) =>
        goHosts1 fuel pass attempts (row :: rows)
          ((.error (errMsg "Starting daemon connection attempts"), script, trace))
      | _ => (.error (errMsg "No daemons available"), script, trace)
  | none =>
    match daemonHosts with
    | .arr (row :: rows) =>
      goHosts1 fuel pass attempts (row :: rows)
        ((.error (errMsg "Starting daemon connection attempts"), script, trace))
    | _ => (.error (errMsg "No daemons available"), script, trace)

/-- First-generation `_getServerConfig` (lines 813 to 846):
`core.get_config_values` for the five known keys; the fetched object is
stored and, when its `allow_remote` is falsy, the operation rejects with
the remote-disabled error; otherwise it resolves with the one-element
array holding the config. -/
def getServerConfig1 (fuel : Nat) (pass : Option String) (script : Script) (trace : Trace) : Res RVal :=
  bindR (request1 fuel pass "core.get_config_values"
      [.arr [.str "allow_remote", .str "download_location", .str "move_completed",
             .str "move_completed_path", .str "add_paused"]] script trace)
    (fun p s t =>
      if (objGet p.result "allow_remote").truthy then (.ok (.arr [p.result]), s, t)
      else (.error (errMsg "Remote connections disabled"), s, t))

/-- First-generation `_connect` (lines 273 to 294): `_initState` (lines 86
to 149) re-reads the stored connections and takes the URL and password of
the first entry; with none the operation rejects.  Then `_getSession` with
a `catch` into `_doLogin`, then `_checkDaemonConnection`, a `catch` into
`_getDaemons` followed by `_getConnectedDaemon`, and finally
`_getServerConfig`. -/
def connect1 (fuel : Nat) (conns : List Conn) (cache : Option DaemonInfo1) (attempts : Nat)
    (script : Script) (trace : Trace) : Res RVal :=
  match conns with
  | [] => (.error (errMsg "Server URL not set after initialization"), script, trace)
  | c :: _ =>
    let pass := some c.pass
    bindR
      (catchR
        (dropR (bindR
          (catchR (getSession1 fuel pass script trace) (fun _ s t => doLogin1 fuel pass s t))
          (fun _ s t => checkDaemon1 fuel pass s t)))
        (fun _ s t =>
          dropR (bindR (getDaemons1 fuel pass s t) (fun ds s2 t2 =>
            getConnectedDaemon1 fuel pass cache attempts ds s2 t2))))
      (fun _ s t => getServerConfig1 fuel pass s t)

/-- Modelled from the spec: `_downloadTorrent` is called by the
first-generation `_addTorrentUrlToServer` (line 1082) and by
`getTorrentInfo`, but no definition for it is present anywhere under
src/.  The spec (section 4.5) describes the behaviour such a fallback must
have: fetch the resource with the same cookie jar and hand back the raw
bytes.  The model records that fetch in the trace and resolves with the
raw torrent bytes. -/
def downloadTorrent1 (url : String) (cookieHeader : String) (script : Script) (trace : Trace) : Res RVal :=
  (.ok (.str "raw-torrent-bytes"), script, trace ++ [.fileFetch url cookieHeader])

/-- First-generation `_addTorrentViaUrl` (lines 1109 to 1155):
`core.add_torrent_url` with `[url, params]`; a resolved payload with an
`error` would trigger the one-shot Deluge 1.x retry with
`[url, params, {}]`, the distinct 403 error carrying `code` 403, or a
verbatim rejection; a `result` of `false` rejects. -/
def addTorrentViaUrl1 (fuel : Nat) (pass : Option String) (url : String)
    (params : List (String × RVal)) (script : Script) (trace : Trace) : Res RVal :=
  bindR (request1 fuel pass "core.add_torrent_url" [.str url, .obj params] script trace)
    (fun p s t =>
      match p.error with
      | some m =>
        if hasSub m "takes exactly 3 arguments" || hasSub m "takes exactly three arguments" then
          bindR (request1 fuel pass "core.add_torrent_url" [.str url, .obj params, .obj []] s t)
            (fun p2 s2 t2 => (.ok (payloadRVal p2), s2, t2))
        else if hasSub m "403 Forbidden" then
          (.error ⟨"Unable to access torrent - the site may require authentication or cookies", some 403⟩, s, t)
        else
          (.error (errMsg (if m == "" then "Failed to add torrent" else m)), s, t)
      | none =>
        match p.result with
        | .bool false => (.error (errMsg "Server refused torrent"), s, t)
        | v => (.ok v, s, t))

/-- First-generation `_addTorrentUrlToServer` (lines 1015 to 1107).
`cookieHeader` is the value of `COOKIES[cookie_domain]` left by
`_getDomainCookies` (the browser cookie store is an environment input).
Non-magnet URLs are passed through `encodeURI`; with `send_cookies` not
stored as `false` and a nonempty cookie header the `cookie` param is
attached.  The catch handler inspects `error.code === 403`: with cookies
present it falls back to downloading the torrent with the cookie jar and
submitting the bytes via `core.add_torrent_file`, any failure of which
rejects with the combined message; otherwise the original error is
re-raised. -/
def addTorrentUrlToServer1 (fuel : Nat) (pass : Option String) (url : String)
    (options : Option (List (String × RVal))) (cookieHeader : String)
    (sendCookies : Option Bool) (script : Script) (trace : Trace) : Res RVal :=
  let params := buildParams options
  let encodedUrl := if strStarts url "magnet:" then url else encodeURI url
  if strStarts url "magnet:" then
    addTorrentViaUrl1 fuel pass encodedUrl params script trace
  else
    let params2 :=
      if !(sendCookies == some false) && !(cookieHeader == "") then
        setKey params "cookie" (.str cookieHeader)
      else params
    match addTorrentViaUrl1 fuel pass encodedUrl params2 script trace with
    | (.ok v, s, t) => (.ok v, s, t)
    | (.error e, s, t) =>
      if e.code == some 403 && !(cookieHeader == "") then
        catchR
          (bindR (downloadTorrent1 encodedUrl cookieHeader s t) (fun bytes s2 t2 =>
            bindR (request1 fuel pass "core.add_torrent_file" [.str "temp.torrent", bytes, .obj params2] s2 t2)
              (fun p s3 t3 =>
                match p.error with
                | some m => (.error (errMsg (if m == "" then "Failed to add torrent file" else m)), s3, t3)
                | none => (.ok p.result, s3, t3))))
          (fun _ s2 t2 =>
            (.error (errMsg "Unable to add torrent: Direct access failed (403) and download attempt failed. The site may require authentication or cookies."), s2, t2))
      else
        (.error e, s, t)

/-- First-generation `_processPluginOptions` (lines 1158 to 1185). -/
def processPluginOptions1 (fuel : Nat) (pass : Option String) (plugins : Option (List (String × RVal)))
    (torrentId : RVal) (script : Script) (trace : Trace) : Res Unit :=
  match plugins with
  | none => (.ok (), script, trace)
  | some ps =>
    if torrentId.truthy then
      if (objGet (.obj ps) "Label").truthy then
        catchR (dropR (request1 fuel pass "label.set_torrent" [torrentId, objGet (.obj ps) "Label"] script trace))
          (fun _ s t => (.ok (), s, t))
      else (.ok (), script, trace)
    else (.ok (), script, trace)

/-- First-generation `addTorrent` (lines 169 to 229): reject when the
instance has no server URL; `_connect`, then `_getDomainCookies` (a pure
browser-store interaction with no daemon call, folded into the
`cookieHeader` input), then `_addTorrentUrlToServer`, then
`_processPluginOptions` when a nonempty plugins object was passed,
resolving with the torrent id. -/
def addTorrent1 (fuel : Nat) (curUrl : Option String) (conns : List Conn)
    (cache : Option DaemonInfo1) (attempts : Nat) (url : String) (cookieHeader : String)
    (plugins : Option (List (String × RVal))) (options : Option (List (String × RVal)))
    (sendCookies : Option Bool) (script : Script) (trace : Trace) : Res RVal :=
  match curUrl with
  | none => (.error (errMsg "SERVER_URL is not set. Please configure it in the options."), script, trace)
  | some _ =>
    let pass := (conns.head?).map (fun c => c.pass)
    bindR (connect1 fuel conns cache attempts script trace) (fun _ s t =>
      match addTorrentUrlToServer1 fuel pass url options cookieHeader sendCookies s t with
      | (.error e, s2, t2) => (.error e, s2, t2)
      | (.ok tid, s2, t2) =>
        match plugins with
        | some ps =>
          if 0 < ps.length then
            bindR (processPluginOptions1 fuel pass (some ps) tid s2 t2)
              (fun _ s3 t3 => (.ok tid, s3, t3))
          else (.ok tid, s2, t2)
        | none => (.ok tid, s2, t2))

/-- Trace of a possibly never-settling operation; an unsettled operation
contributes the empty trace here only because its calls are what the
settled branch already recorded before the guard. -/
def unsettledOr (o : Option (Res RVal)) : Trace :=
  match o with
  | some r => r.2.2
  | none => []

/-- Message of a rejection, `none` for a resolution. -/
def errMsgOf (r : Except JErr RVal) : Option String :=
  match r with
  | .error e => some e.msg
  | .ok _ => none

/-- Spec-side predicate, following the words of the spec (section 4.5,
"other URIs are percent-encoded if not already"): a string counts as
already percent-encoded when every character is one the encoder may emit
and every percent sign opens an escape of exactly two hexadecimal
digits. -/
def percentEncodedL : List Char → Bool
  | [] => true
  | c :: rest =>
    if c == '%' then
      match rest with
      | a :: b :: rest2 => (a.isDigit || (65 ≤ a.toNat && a.toNat ≤ 70) || (97 ≤ a.toNat && a.toNat ≤ 102))
          && (b.isDigit || (65 ≤ b.toNat && b.toNat ≤ 70) || (97 ≤ b.toNat && b.toNat ≤ 102))
          && percentEncodedL rest2
      | _ => false
    else isUriSafe c && percentEncodedL rest

/-- Spec-side predicate on strings: already percent-encoded. -/
def isPercentEncoded (s : String) : Bool := percentEncodedL s.data

/-- Whether a 2xx exchange makes the second-generation `_request` reject:
a body `error` message, or a body `status` of 403. -/
def respFails (r : HttpResp) : Bool :=
  match r.error with
  | some _ => true
  | none => r.bstatus == some 403

/-- Whether a value has an array under its `labels` key. -/
def hasLabelsArr (v : RVal) : Bool :=
  match objGet v "labels" with
  | .arr _ => true
  | _ => false

/-- Failure of the legacy config-get fallback shape: the call rejects, or
its resolved result lacks a `labels` array. -/
def fails2resp (r : HttpResp) : Bool := respFails r || !(r.result.truthy && hasLabelsArr r.result)

/-- Failure of the LabelPlus fallback shape: the call rejects, or its
resolved result is falsy. -/
def fails3resp (r : HttpResp) : Bool := respFails r || !r.result.truthy

/-- One candidate daemon host of the locator model: its id, the status
string the panel reports for it, and whether its start and connect calls
would succeed. -/
structure HostSpec where
  hostId : String
  status : String
  startOk : Bool
  connectOk : Bool

/-- The `web.get_hosts` row for a host (the locator reads `row[0]`). -/
def hostRow (h : HostSpec) : RVal := .arr [.str h.hostId]

/-- The claim ranges over statuses in Offline, Online, Connected. -/
def validStatus (h : HostSpec) : Bool :=
  h.status == "Connected" || h.status == "Online" || h.status == "Offline"

/-- Whether a host reaches a connected state under the per-host recipe:
Connected directly, Online through its connect call, Offline through its
start call and then its connect call. -/
def hostSucceeds (h : HostSpec) : Bool :=
  h.status == "Connected" || (h.status == "Online" && h.connectOk)
    || (h.status == "Offline" && h.startOk && h.connectOk)

/-- The `web.get_host_status` response for a host. -/
def statusResp (h : HostSpec) : HttpResp := okResp (.arr [.str h.status, .null])

/-- A response that makes a call succeed or reject with the given
message. -/
def boolResp (b : Bool) (m : String) : HttpResp :=
  if b then okResp (.bool true) else errBody m

/-- The responses one host consumes while the locator processes it. -/
def hostScript (h : HostSpec) : Script :=
  statusResp h ::
    (if h.status == "Connected" then []
     else if h.status == "Online" then [boolResp h.connectOk "connect failed"]
     else if h.status == "Offline" then
       boolResp h.startOk "start failed" ::
         (if h.startOk then [boolResp h.connectOk "connect failed"] else [])
     else [])

/-- The calls the locator issues while processing one host: its status
query, then for Online one connect, for Offline one start and (when the
start succeeded) one connect. -/
def hostCalls (h : HostSpec) : Trace :=
  .rpc "web.get_host_status" [.str h.hostId] ::
    (if h.status == "Connected" then []
     else if h.status == "Online" then [.rpc "web.connect" [.str h.hostId]]
     else if h.status == "Offline" then
       .rpc "web.start_daemon" [.str h.hostId] ::
         (if h.startOk then [.rpc "web.connect" [.str h.hostId]] else [])
     else [])

/-- What the locator resolves with when it adopts a host: the parsed
`daemon_info` for an already Connected host, the literal `true` that
`_connectDaemon` resolves with otherwise. -/
def adoptVal (rows : List RVal) (h : HostSpec) : Adopt :=
  if h.status == "Connected" then
    .dinfo ⟨.str h.status, .null, .str h.hostId,
      rows.find? (fun row => jsStrictEq (elemAt row 0) (.str h.hostId))⟩
  else .flag true

/-- Rows, scripts and calls of a whole host list. -/
def hostsRows (hosts : List HostSpec) : List RVal := hosts.map hostRow

/-- Concatenated per-host scripts. -/
def hostsScript (hosts : List HostSpec) : Script := (hosts.map hostScript).flatten

/-- Concatenated per-host call lists. -/
def hostsCalls (hosts : List HostSpec) : Trace := (hosts.map hostCalls).flatten

/-- C1.  The claim says a re-login followed by a retry of the original
call happens at most once per original call.  Counterexample: a server
that answers HTTP 403 twice on `web.get_plugins` while logins and session
probes succeed makes the first-generation `_request` log in twice for one
original call (trace shown in full), refuting the at-most-once bound. -/
theorem request1_relogin_not_once :
    rpcMethods (request1 20 (some "pw") "web.get_plugins" []
        [httpErr 403, okResp (.bool true), okResp (.bool true),
         httpErr 403, okResp (.bool true), okResp (.bool true), okResp (.str "r")] []).2.2
      = ["web.get_plugins", "auth.login", "auth.check_session",
         "web.get_plugins", "auth.login", "auth.check_session", "web.get_plugins"]
    ∧ 1 < countMethod (request1 20 (some "pw") "web.get_plugins" []
        [httpErr 403, okResp (.bool true), okResp (.bool true),
         httpErr 403, okResp (.bool true), okResp (.bool true), okResp (.str "r")] []).2.2 "auth.login"
    ∧ (request1 20 (some "pw") "web.get_plugins" []
        [httpErr 403, okResp (.bool true), okResp (.bool true),
         httpErr 403, okResp (.bool true), okResp (.bool true), okResp (.str "r")] []).1
      = Except.ok ⟨none, none, .str "r"⟩ := by
  refine ⟨rfl, ?_, rfl⟩
  decide

/-- C7.  The source of `_addTorrentViaUrl` contains a one-shot retry with
the alternate `[url, params, {}]` shape for the wrong-argument-count
error, but `_request` rejects every payload carrying an `error` field
before that handler can see it, so at the failing input (a 2xx response
whose body reports the Deluge 1.x arity error) the call rejects verbatim
and no second `core.add_torrent_url` call is issued. -/
theorem addTorrentViaUrl2_wrong_arg_count_no_retry :
    (addTorrentViaUrl2 9 (some "pw") "http://x/t.torrent" []
        [errBody "add_torrent_url() takes exactly 3 arguments (2 given)"] []).1
      = Except.error (errMsg "add_torrent_url() takes exactly 3 arguments (2 given)")
    ∧ rpcMethods (addTorrentViaUrl2 9 (some "pw") "http://x/t.torrent" []
        [errBody "add_torrent_url() takes exactly 3 arguments (2 given)"] []).2.2
      = ["core.add_torrent_url"]
    ∧ countMethod (addTorrentViaUrl2 9 (some "pw") "http://x/t.torrent" []
        [errBody "add_torrent_url() takes exactly 3 arguments (2 given)"] []).2.2 "core.add_torrent_url"
      = 1 :=
  ⟨rfl, rfl, rfl⟩

/-- C8.  Counterexample to "never performs more than one login per
establishment attempt": in the second-generation `_getSession`, a probe
that resolves `false` falls into `_doLogin`, whose confirming re-probe on
a nominally successful login falls into `_doLogin` again when it also
resolves `false`; one establishment attempt then performs two logins. -/
theorem getSession2_two_logins_counterexample :
    rpcMethods (getSession2 20 (some "pw")
        [okResp (.bool false), okResp (.bool true), okResp (.bool false),
         okResp (.bool true), okResp (.bool true)] []).2.2
      = ["auth.check_session", "auth.login", "auth.check_session", "auth.login", "auth.check_session"]
    ∧ 1 < countMethod (getSession2 20 (some "pw")
        [okResp (.bool false), okResp (.bool true), okResp (.bool false),
         okResp (.bool true), okResp (.bool true)] []).2.2 "auth.login"
    ∧ (getSession2 20 (some "pw")
        [okResp (.bool false), okResp (.bool true), okResp (.bool false),
         okResp (.bool true), okResp (.bool true)] []).1 = Except.ok (.bool true) := by
  refine ⟨rfl, ?_, rfl⟩
  decide

/-- C8 amended.  In the scenario of the claim (one failed probe, then a
login that nominally succeeds and whose confirming re-probe succeeds), the
second-generation session establishment performs exactly one login call
and exactly one confirming re-probe and ends in a usable state. -/
theorem getSession2_probe_fail_login_ok :
    (getSession2 20 (some "pw") [okResp (.bool false), okResp (.bool true), okResp (.bool true)] []).1
      = Except.ok (.bool true)
    ∧ rpcMethods (getSession2 20 (some "pw")
        [okResp (.bool false), okResp (.bool true), okResp (.bool true)] []).2.2
      = ["auth.check_session", "auth.login", "auth.check_session"]
    ∧ countMethod (getSession2 20 (some "pw")
        [okResp (.bool false), okResp (.bool true), okResp (.bool true)] []).2.2 "auth.login" = 1
    ∧ countMethod (getSession2 20 (some "pw")
        [okResp (.bool false), okResp (.bool true), okResp (.bool true)] []).2.2 "auth.check_session" = 2 :=
  ⟨rfl, rfl, rfl, rfl⟩

/-- C2.  With an empty stored connection list, the first-generation
`_connect` rejects with the distinct not-configured error before touching
the network: the script is returned untouched and the trace stays empty,
whatever responses the network would have given and whatever fuel is
supplied. -/
theorem connect1_empty_config_rejects_without_network (fuel : Nat) (script : Script) :
    connect1 fuel [] none 0 script []
      = (Except.error (errMsg "Server URL not set after initialization"), script, []) := rfl

/-- C10.  In the second-generation `_addTorrentUrlToServer`, for every
non-magnet URL, when the stored `send_cookies` setting is exactly `false`
the returned promise never settles: the storage callback only acts under
`send_cookies !== false`, so neither resolve nor reject ever runs
(modelled as `none`). -/
theorem addTorrentUrlToServer2_send_cookies_false_never_settles
    (url : String) (opts : Option (List (String × RVal))) (cookies : List (String × String))
    (script : Script) (trace : Trace) (h : strStarts url "magnet:" = false) :
    addTorrentUrlToServer2 9 (some "pw") url opts cookies (some false) script trace = none := by
  simp [addTorrentUrlToServer2, h]

/-- C10 witness: a concrete non-magnet URL with `send_cookies` stored as
`false` never settles. -/
theorem addTorrentUrlToServer2_send_cookies_false_never_settles_witness :
    strStarts "http://example.com/file.torrent" "magnet:" = false
    ∧ addTorrentUrlToServer2 9 (some "pw") "http://example.com/file.torrent" none []
        (some false) [okResp (.str "tid")] [] = none :=
  ⟨rfl, addTorrentUrlToServer2_send_cookies_false_never_settles
    "http://example.com/file.torrent" none [] [okResp (.str "tid")] [] rfl⟩

/-- C4.  Counterexample to "surfaces a distinct remote-access-denied
error": in the second generation, an add-torrent call whose 2xx body
reports a 403-flavored error (cookies were attached via the `cookie`
param) is rejected by `_request` with the raw server message before the
distinct-error branch of `_addTorrentViaUrl` can run, so the caller sees
the verbatim message, not the distinct remote-access-denied error; no
torrent-file fetch happens either way. -/
theorem addTorrentViaUrl2_403_raw_error_counterexample :
    errMsgOf (addTorrentViaUrl2 9 (some "pw") "http://site/file.torrent"
        [("cookie", .str "session=abc")] [errBody "Error: 403 Forbidden"] []).1
      = some "Error: 403 Forbidden"
    ∧ (errMsgOf (addTorrentViaUrl2 9 (some "pw") "http://site/file.torrent"
        [("cookie", .str "session=abc")] [errBody "Error: 403 Forbidden"] []).1
        == some "Unable to access torrent - the site may require authentication or cookies") = false
    ∧ rpcMethods (addTorrentViaUrl2 9 (some "pw") "http://site/file.torrent"
        [("cookie", .str "session=abc")] [errBody "Error: 403 Forbidden"] []).2.2
      = ["core.add_torrent_url"]
    ∧ hasFetch (addTorrentViaUrl2 9 (some "pw") "http://site/file.torrent"
        [("cookie", .str "session=abc")] [errBody "Error: 403 Forbidden"] []).2.2 = false :=
  ⟨rfl, rfl, rfl, rfl⟩

/-- C4 amended.  In the first generation, an add-torrent call whose 2xx
body reports a 403-flavored error while site cookies are present rejects
with the distinct remote-access-denied message produced by `_request`, and
the download-then-resubmit fallback of `_addTorrentUrlToServer` never
runs, because no rejection ever carries the `code` 403 property that the
fallback requires: no torrent-file fetch and no `core.add_torrent_file`
call appear in the trace. -/
theorem addTorrentUrlToServer1_403_distinct_error_no_fallback
    (url m jar : String) (opts : Option (List (String × RVal))) (sc : Option Bool)
    (hmag : strStarts url "magnet:" = false) (_hjar : (jar == "") = false)
    (hm : hasSub m "403 Forbidden" = true) :
    (addTorrentUrlToServer1 9 (some "pw") url opts jar sc [errBody m] []).1
      = Except.error (errMsg "Remote server denied access - the site may require authentication")
    ∧ hasFetch (addTorrentUrlToServer1 9 (some "pw") url opts jar sc [errBody m] []).2.2 = false
    ∧ countMethod (addTorrentUrlToServer1 9 (some "pw") url opts jar sc [errBody m] []).2.2
        "core.add_torrent_file" = 0
    ∧ rpcMethods (addTorrentUrlToServer1 9 (some "pw") url opts jar sc [errBody m] []).2.2
      = ["core.add_torrent_url"] := by
  have hadd : hasSub "core.add_torrent_url" "add_torrent" = true := rfl
  simp [addTorrentUrlToServer1, addTorrentViaUrl1, request1, bindR, errBody, httpOk, hmag, hm,
    hadd, errMsg, hasFetch, countMethod, rpcMethods]

/-- C4 amended witness at a concrete input. -/
theorem addTorrentUrlToServer1_403_distinct_error_no_fallback_witness :
    (strStarts "http://site/file.torrent" "magnet:" = false
      ∧ (("session=abc" : String) == "") = false
      ∧ hasSub "Error: 403 Forbidden" "403 Forbidden" = true)
    ∧ (addTorrentUrlToServer1 9 (some "pw") "http://site/file.torrent" none "session=abc" none
        [errBody "Error: 403 Forbidden"] []).1
      = Except.error (errMsg "Remote server denied access - the site may require authentication") :=
  ⟨⟨rfl, rfl, rfl⟩,
    (addTorrentUrlToServer1_403_distinct_error_no_fallback "http://site/file.torrent"
      "Error: 403 Forbidden" "session=abc" none none rfl rfl rfl).1⟩

/-- C5.  Counterexample to "percent-encoding is applied only if the URI is
not already percent-encoded": the URL `http://x/a%20b` is already
percent-encoded by the words of the spec, yet the non-magnet path applies
`encodeURI` unconditionally, so the URL submitted to the server is the
double-encoded `http://x/a%2520b`, a different string. -/
theorem addTorrentUrlToServer2_double_encoding_counterexample :
    isPercentEncoded "http://x/a%20b" = true
    ∧ firstParamOf (unsettledOr (addTorrentUrlToServer2 9 (some "pw") "http://x/a%20b" none []
        none [okResp (.str "tid")] [])) "core.add_torrent_url"
      = some (.str "http://x/a%2520b")
    ∧ (("http://x/a%2520b" : String) == "http://x/a%20b") = false :=
  ⟨rfl, rfl, rfl⟩

/-- C6.  Counterexample: the second-generation `_getServerConfig` never
inspects the fetched `allow_remote` value, so with a server whose config
reports `allow_remote: false` the ensure-connected chain resolves and the
add-torrent call is still issued afterwards — the full `addTorrent`
operation succeeds, with `core.add_torrent_url` in the trace after the
config fetch, instead of rejecting with the remote-disabled error. -/
theorem addTorrent2_allow_remote_false_counterexample :
    (objGet (.obj [("allow_remote", .bool false), ("download_location", .str "/dl")]) "allow_remote").truthy
      = false
    ∧ (addTorrent2 20 (some "http://localhost:8112/") [⟨"http://localhost:8112/", "pw"⟩] none
        "http://site/file.torrent" [] none none none
        [okResp (.bool true), okResp (.bool true),
         okResp (.obj [("allow_remote", .bool false), ("download_location", .str "/dl")]),
         okResp (.str "tid")] []).map (fun r => r.1)
      = some (Except.ok (.str "tid"))
    ∧ (addTorrent2 20 (some "http://localhost:8112/") [⟨"http://localhost:8112/", "pw"⟩] none
        "http://site/file.torrent" [] none none none
        [okResp (.bool true), okResp (.bool true),
         okResp (.obj [("allow_remote", .bool false), ("download_location", .str "/dl")]),
         okResp (.str "tid")] []).map (fun r => rpcMethods r.2.2)
      = some ["auth.check_session", "web.connected", "core.get_config", "core.add_torrent_url"] :=
  ⟨rfl, rfl, rfl⟩

/-- C6 amended.  In the first generation the claim holds: when the fetched
server configuration reports a falsy `allow_remote`, `_getServerConfig`
rejects with the remote-disabled error, the whole `addTorrent` operation
rejects with it, and no add-torrent call of either shape is issued. -/
theorem addTorrent1_remote_disabled_blocks_add (cfg : RVal)
    (hcfg : (objGet cfg "allow_remote").truthy = false) :
    (addTorrent1 20 (some "http://localhost:8112/") [⟨"http://localhost:8112/", "pw"⟩] none 0
        "http://site/file.torrent" "" none none none
        [okResp (.bool true), okResp (.bool true), okResp cfg] []).1
      = Except.error (errMsg "Remote connections disabled")
    ∧ countMethod (addTorrent1 20 (some "http://localhost:8112/") [⟨"http://localhost:8112/", "pw"⟩] none 0
        "http://site/file.torrent" "" none none none
        [okResp (.bool true), okResp (.bool true), okResp cfg] []).2.2 "core.add_torrent_url" = 0
    ∧ countMethod (addTorrent1 20 (some "http://localhost:8112/") [⟨"http://localhost:8112/", "pw"⟩] none 0
        "http://site/file.torrent" "" none none none
        [okResp (.bool true), okResp (.bool true), okResp cfg] []).2.2 "core.add_torrent_file" = 0
    ∧ rpcMethods (addTorrent1 20 (some "http://localhost:8112/") [⟨"http://localhost:8112/", "pw"⟩] none 0
        "http://site/file.torrent" "" none none none
        [okResp (.bool true), okResp (.bool true), okResp cfg] []).2.2
      = ["auth.check_session", "web.connected", "core.get_config_values"] := by
  have ht : (RVal.bool true).truthy = true := rfl
  simp [addTorrent1, connect1, getSession1, request1, bindR, catchR, dropR, checkDaemon1,
    getServerConfig1, okResp, httpOk, ht, hcfg, errMsg, countMethod, rpcMethods]

/-- C6 amended witness at a concrete config object. -/
theorem addTorrent1_remote_disabled_blocks_add_witness :
    (objGet (.obj [("allow_remote", .bool false)]) "allow_remote").truthy = false
    ∧ (addTorrent1 20 (some "http://localhost:8112/") [⟨"http://localhost:8112/", "pw"⟩] none 0
        "http://site/file.torrent" "" none none none
        [okResp (.bool true), okResp (.bool true), okResp (.obj [("allow_remote", .bool false)])] []).1
      = Except.error (errMsg "Remote connections disabled") :=
  ⟨rfl, (addTorrent1_remote_disabled_blocks_add (.obj [("allow_remote", .bool false)]) rfl).1⟩

/-- C1 amended.  After one AuthExpired-classified failure (here an HTTP
403 on a method not containing `add_torrent`) with a login and confirming
probe that succeed, the first-generation `_request` re-authenticates and
replays the original call exactly once and resolves; the bound is per
auth-classified failure, not per original call, so repeated failures
repeat the cycle (see the counterexample). -/
theorem request1_single_auth_failure_single_relogin (m : String) (v : RVal)
    (hm : hasSub m "add_torrent" = false) :
    (request1 9 (some "pw") m []
        [httpErr 403, okResp (.bool true), okResp (.bool true), okResp v] []).1
      = Except.ok ⟨none, none, v⟩
    ∧ rpcMethods (request1 9 (some "pw") m []
        [httpErr 403, okResp (.bool true), okResp (.bool true), okResp v] []).2.2
      = [m, "auth.login", "auth.check_session", m] := by
  simp [request1, doLogin1, getSession1, bindR, httpErr, okResp, httpOk, hm, RVal.truthy,
    errMsg, rpcMethods]

/-- C1 amended witness at a concrete method and result. -/
theorem request1_single_auth_failure_single_relogin_witness :
    hasSub "web.get_plugins" "add_torrent" = false
    ∧ (request1 9 (some "pw") "web.get_plugins" []
        [httpErr 403, okResp (.bool true), okResp (.bool true), okResp (.bool true)] []).1
      = Except.ok ⟨none, none, .bool true⟩ :=
  ⟨rfl, (request1_single_auth_failure_single_relogin "web.get_plugins" (.bool true) rfl).1⟩

/-- C5 amended.  A magnet URI is submitted to the server byte-identical
with no percent-encoding; every other URI has `encodeURI` applied
unconditionally (already-encoded URIs included, which double-encodes
them). -/
theorem addTorrentUrlToServer2_url_encoding (url : String)
    (opts : Option (List (String × RVal))) (cookies : List (String × String)) (sc : Option Bool) :
    (strStarts url "magnet:" = true →
      firstParamOf (unsettledOr (addTorrentUrlToServer2 9 (some "pw") url opts cookies sc
          [okResp (.str "tid")] [])) "core.add_torrent_url" = some (.str url))
    ∧ (strStarts url "magnet:" = false →
      firstParamOf (unsettledOr (addTorrentUrlToServer2 9 (some "pw") url opts cookies none
          [okResp (.str "tid")] [])) "core.add_torrent_url" = some (.str (encodeURI url))) := by
  constructor
  · intro h
    simp [addTorrentUrlToServer2, addTorrentViaUrl2, request2, bindR, okResp, httpOk, h,
      isAuthError2, unsettledOr, firstParamOf]
  · intro h
    simp [addTorrentUrlToServer2, addTorrentViaUrl2, request2, bindR, okResp, httpOk, h,
      isAuthError2, unsettledOr, firstParamOf]

/-- C5 amended witness: one magnet URI passing through byte-identical and
one plain URI getting `encodeURI` applied. -/
theorem addTorrentUrlToServer2_url_encoding_witness :
    (strStarts "magnet:?xt=urn:btih:abcd1234" "magnet:" = true
      ∧ firstParamOf (unsettledOr (addTorrentUrlToServer2 9 (some "pw") "magnet:?xt=urn:btih:abcd1234"
          none [] none [okResp (.str "tid")] [])) "core.add_torrent_url"
        = some (.str "magnet:?xt=urn:btih:abcd1234"))
    ∧ (strStarts "http://x/a b" "magnet:" = false
      ∧ firstParamOf (unsettledOr (addTorrentUrlToServer2 9 (some "pw") "http://x/a b"
          none [] none [okResp (.str "tid")] [])) "core.add_torrent_url"
        = some (.str (encodeURI "http://x/a b"))) :=
  ⟨⟨rfl, (addTorrentUrlToServer2_url_encoding "magnet:?xt=urn:btih:abcd1234" none [] none).1 rfl⟩,
   ⟨rfl, (addTorrentUrlToServer2_url_encoding "http://x/a b" none [] none).2 rfl⟩⟩

/-- Evaluation of the second-generation `_request` on one 2xx response:
the call consumes exactly that response, records exactly one RPC, rejects
on a body error or a body status of 403 and resolves with the payload
otherwise.  This is the shape every theorem over arbitrary 2xx scripts
rests on. -/
theorem request2_plain (f : Nat) (pass : Option String) (m : String) (ps : List RVal)
    (r : HttpResp) (s : Script) (t : Trace) (h : httpOk r = true) :
    request2 (f+1) pass m ps (r :: s) t =
      ((match r.error with
        | some e => Except.error (errMsg (if e == "" then "Unknown server error" else e))
        | none =>
          if r.bstatus == some 403 then Except.error (errMsg "Access denied by remote server")
          else Except.ok ⟨none, r.bstatus, r.result⟩), s, t ++ [.rpc m ps]) := by
  cases hr : r.error with
  | some e => simp [request2, h, hr]
  | none =>
    simp [request2, h, hr, isAuthError2]
    by_cases hb : r.bstatus = some 403 <;> simp [hb]

/-- Closed-form evaluation of the second-generation
`_getLabelsWithFallbacks` over three arbitrary 2xx responses: the chain
consumes exactly one response per shape actually tried, in the fixed
order, and always resolves. -/
theorem glf2_eval (r1 r2 r3 : HttpResp) (rest : Script)
    (h1 : httpOk r1 = true) (h2 : httpOk r2 = true) (h3 : httpOk r3 = true) :
    getLabelsWithFallbacks2 9 (some "pw") (r1 :: r2 :: r3 :: rest) [] =
      (if respFails r1 = true then
        (if fails2resp r2 = true then
          (Except.ok (if fails3resp r3 = true then RVal.arr [] else RVal.arr (labelPlusNames r3.result)),
            rest,
            [Ev.rpc "label.get_labels" [], Ev.rpc "label.get_config" [], Ev.rpc "labelplus.get_labels" []])
        else
          (Except.ok (objGet r2.result "labels"), r3 :: rest,
            [Ev.rpc "label.get_labels" [], Ev.rpc "label.get_config" []]))
      else
        (Except.ok (match r1.result with | .arr xs => RVal.arr xs | _ => RVal.arr []),
          r2 :: r3 :: rest, [Ev.rpc "label.get_labels" []])) := by
  have e1 : request2 9 (some "pw") "label.get_labels" [] (r1 :: r2 :: r3 :: rest) [] =
      ((match r1.error with
        | some e => Except.error (errMsg (if e == "" then "Unknown server error" else e))
        | none =>
          if r1.bstatus == some 403 then Except.error (errMsg "Access denied by remote server")
          else Except.ok ⟨none, r1.bstatus, r1.result⟩),
        r2 :: r3 :: rest, [] ++ [.rpc "label.get_labels" []]) :=
    request2_plain 8 (some "pw") "label.get_labels" [] r1 (r2 :: r3 :: rest) [] h1
  have e2 : ∀ t : Trace, request2 9 (some "pw") "label.get_config" [] (r2 :: r3 :: rest) t =
      ((match r2.error with
        | some e => Except.error (errMsg (if e == "" then "Unknown server error" else e))
        | none =>
          if r2.bstatus == some 403 then Except.error (errMsg "Access denied by remote server")
          else Except.ok ⟨none, r2.bstatus, r2.result⟩),
        r3 :: rest, t ++ [.rpc "label.get_config" []]) :=
    fun t => request2_plain 8 (some "pw") "label.get_config" [] r2 (r3 :: rest) t h2
  have e3 : ∀ t : Trace, request2 9 (some "pw") "labelplus.get_labels" [] (r3 :: rest) t =
      ((match r3.error with
        | some e => Except.error (errMsg (if e == "" then "Unknown server error" else e))
        | none =>
          if r3.bstatus == some 403 then Except.error (errMsg "Access denied by remote server")
          else Except.ok ⟨none, r3.bstatus, r3.result⟩),
        rest, t ++ [.rpc "labelplus.get_labels" []]) :=
    fun t => request2_plain 8 (some "pw") "labelplus.get_labels" [] r3 rest t h3
  unfold getLabelsWithFallbacks2
  rw [e1]
  cases hr1 : r1.error with
  | none =>
    by_cases hb1 : r1.bstatus = some 403
    · -- one: the probe is rejected through the body status
      simp only [hb1, beq_self_eq_true, if_true, bindR, catchR]
      rw [e2 _]
      cases hr2 : r2.error with
      | none =>
        by_cases hb2 : r2.bstatus = some 403
        · simp only [hb2, beq_self_eq_true, if_true, bindR, catchR]
          rw [e3 _]
          cases hr3 : r3.error with
          | none =>
            by_cases hb3 : r3.bstatus = some 403
            · simp [hb3, bindR, catchR, respFails, fails2resp, fails3resp, hr1, hr2, hr3, hb1, hb2]
            · have hb3b : (r3.bstatus == some 403) = false := beq_eq_false_iff_ne.mpr hb3
              cases ht3 : r3.result.truthy <;>
                simp [hb3b, ht3, bindR, catchR, respFails, fails2resp, fails3resp, hr1, hr2, hr3, hb1, hb2]
          | some m3 =>
            simp [bindR, catchR, respFails, fails2resp, fails3resp, hr1, hr2, hr3, hb1, hb2]
        · have hb2b : (r2.bstatus == some 403) = false := beq_eq_false_iff_ne.mpr hb2
          simp only [hb2b, Bool.false_eq_true, if_false, bindR, catchR]
          cases ht2 : r2.result.truthy
          · simp only [ht2, Bool.false_eq_true, if_false, bindR, catchR]
            rw [e3 _]
            cases hr3 : r3.error with
            | none =>
              by_cases hb3 : r3.bstatus = some 403
              · simp [hb3, bindR, catchR, respFails, fails2resp, fails3resp, hasLabelsArr,
                  hr1, hr2, hr3, hb1, hb2b, ht2]
              · have hb3b : (r3.bstatus == some 403) = false := beq_eq_false_iff_ne.mpr hb3
                cases ht3 : r3.result.truthy <;>
                  simp [hb3b, ht3, bindR, catchR, respFails, fails2resp, fails3resp, hasLabelsArr,
                    hr1, hr2, hr3, hb1, hb2b, ht2]
            | some m3 =>
              simp [bindR, catchR, respFails, fails2resp, fails3resp, hasLabelsArr,
                hr1, hr2, hr3, hb1, hb2b, ht2]
          · simp only [ht2, if_true, bindR, catchR]
            cases hl2 : objGet r2.result "labels"
            rotate_left 4
            · simp [bindR, catchR, respFails, fails2resp, hasLabelsArr, hr1, hr2, hb1, hb2b, ht2, hl2]
            all_goals
              simp only [bindR, catchR]
              rw [e3 _]
              cases hr3 : r3.error with
              | none =>
                by_cases hb3 : r3.bstatus = some 403
                · simp [hb3, bindR, catchR, respFails, fails2resp, fails3resp, hasLabelsArr,
                    hr1, hr2, hr3, hb1, hb2b, ht2, hl2]
                · have hb3b : (r3.bstatus == some 403) = false := beq_eq_false_iff_ne.mpr hb3
                  cases ht3 : r3.result.truthy <;>
                    simp [hb3b, ht3, bindR, catchR, respFails, fails2resp, fails3resp, hasLabelsArr,
                      hr1, hr2, hr3, hb1, hb2b, ht2, hl2]
              | some m3 =>
                simp [bindR, catchR, respFails, fails2resp, fails3resp, hasLabelsArr,
                  hr1, hr2, hr3, hb1, hb2b, ht2, hl2]
      | some m2 =>
        simp only [bindR, catchR]
        rw [e3 _]
        cases hr3 : r3.error with
        | none =>
          by_cases hb3 : r3.bstatus = some 403
          · simp [hb3, bindR, catchR, respFails, fails2resp, fails3resp, hr1, hr2, hr3, hb1]
          · have hb3b : (r3.bstatus == some 403) = false := beq_eq_false_iff_ne.mpr hb3
            cases ht3 : r3.result.truthy <;>
              simp [hb3b, ht3, bindR, catchR, respFails, fails2resp, fails3resp, hr1, hr2, hr3, hb1]
        | some m3 =>
          simp [bindR, catchR, respFails, fails2resp, fails3resp, hr1, hr2, hr3, hb1]
    · -- one: the probe resolves
      have hb1b : (r1.bstatus == some 403) = false := beq_eq_false_iff_ne.mpr hb1
      simp only [hb1b, Bool.false_eq_true, if_false, bindR, catchR]
      cases hres : r1.result <;>
        simp [bindR, catchR, respFails, hr1, hb1b, hres]
  | some m1 =>
    simp only [bindR, catchR]
    rw [e2 _]
    cases hr2 : r2.error with
    | none =>
      by_cases hb2 : r2.bstatus = some 403
      · simp only [hb2, beq_self_eq_true, if_true, bindR, catchR]
        rw [e3 _]
        cases hr3 : r3.error with
        | none =>
          by_cases hb3 : r3.bstatus = some 403
          · simp [hb3, bindR, catchR, respFails, fails2resp, fails3resp, hr1, hr2, hr3, hb2]
          · have hb3b : (r3.bstatus == some 403) = false := beq_eq_false_iff_ne.mpr hb3
            cases ht3 : r3.result.truthy <;>
              simp [hb3b, ht3, bindR, catchR, respFails, fails2resp, fails3resp, hr1, hr2, hr3, hb2]
        | some m3 =>
          simp [bindR, catchR, respFails, fails2resp, fails3resp, hr1, hr2, hr3, hb2]
      · have hb2b : (r2.bstatus == some 403) = false := beq_eq_false_iff_ne.mpr hb2
        simp only [hb2b, Bool.false_eq_true, if_false, bindR, catchR]
        cases ht2 : r2.result.truthy
        · simp only [ht2, Bool.false_eq_true, if_false, bindR, catchR]
          rw [e3 _]
          cases hr3 : r3.error with
          | none =>
            by_cases hb3 : r3.bstatus = some 403
            · simp [hb3, bindR, catchR, respFails, fails2resp, fails3resp, hasLabelsArr,
                hr1, hr2, hr3, hb2b, ht2]
            · have hb3b : (r3.bstatus == some 403) = false := beq_eq_false_iff_ne.mpr hb3
              cases ht3 : r3.result.truthy <;>
                simp [hb3b, ht3, bindR, catchR, respFails, fails2resp, fails3resp, hasLabelsArr,
                  hr1, hr2, hr3, hb2b, ht2]
          | some m3 =>
            simp [bindR, catchR, respFails, fails2resp, fails3resp, hasLabelsArr,
              hr1, hr2, hr3, hb2b, ht2]
        · simp only [ht2, if_true, bindR, catchR]
          cases hl2 : objGet r2.result "labels"
          rotate_left 4
          · simp [bindR, catchR, respFails, fails2resp, hasLabelsArr, hr1, hr2, hb2b, ht2, hl2]
          all_goals
            simp only [bindR, catchR]
            rw [e3 _]
            cases hr3 : r3.error with
            | none =>
              by_cases hb3 : r3.bstatus = some 403
              · simp [hb3, bindR, catchR, respFails, fails2resp, fails3resp, hasLabelsArr,
                  hr1, hr2, hr3, hb2b, ht2, hl2]
              · have hb3b : (r3.bstatus == some 403) = false := beq_eq_false_iff_ne.mpr hb3
                cases ht3 : r3.result.truthy <;>
                  simp [hb3b, ht3, bindR, catchR, respFails, fails2resp, fails3resp, hasLabelsArr,
                    hr1, hr2, hr3, hb2b, ht2, hl2]
            | some m3 =>
              simp [bindR, catchR, respFails, fails2resp, fails3resp, hasLabelsArr,
                hr1, hr2, hr3, hb2b, ht2, hl2]
    | some m2 =>
      simp only [bindR, catchR]
      rw [e3 _]
      cases hr3 : r3.error with
      | none =>
        by_cases hb3 : r3.bstatus = some 403
        · simp [hb3, bindR, catchR, respFails, fails2resp, fails3resp, hr1, hr2, hr3]
        · have hb3b : (r3.bstatus == some 403) = false := beq_eq_false_iff_ne.mpr hb3
          cases ht3 : r3.result.truthy <;>
            simp [hb3b, ht3, bindR, catchR, respFails, fails2resp, fails3resp, hr1, hr2, hr3]
      | some m3 =>
        simp [bindR, catchR, respFails, fails2resp, fails3resp, hr1, hr2, hr3]

/-- C9.  Label discovery in `_getLabelsWithFallbacks`: over arbitrary 2xx
responses, the three fallback shapes (`label.get_labels`, then the legacy
config-get shape `label.get_config`, then the LabelPlus shape
`labelplus.get_labels`) are each tried only after the previous one fails
(the recorded call list extends exactly when the previous call failed);
the operation always resolves, never rejects; if the first two fail and
the third succeeds its labels are returned; and if all three fail it
resolves with the empty label list. -/
theorem getLabelsWithFallbacks2_chain (r1 r2 r3 : HttpResp) (rest : Script)
    (h1 : httpOk r1 = true) (h2 : httpOk r2 = true) (h3 : httpOk r3 = true) :
    (∃ v, (getLabelsWithFallbacks2 9 (some "pw") (r1 :: r2 :: r3 :: rest) []).1 = Except.ok v)
    ∧ rpcMethods (getLabelsWithFallbacks2 9 (some "pw") (r1 :: r2 :: r3 :: rest) []).2.2
      = "label.get_labels" ::
        ((if respFails r1 = true then ["label.get_config"] else []) ++
         (if (respFails r1 && fails2resp r2) = true then ["labelplus.get_labels"] else []))
    ∧ (respFails r1 = true → fails2resp r2 = true → fails3resp r3 = false →
        (getLabelsWithFallbacks2 9 (some "pw") (r1 :: r2 :: r3 :: rest) []).1
          = Except.ok (.arr (labelPlusNames r3.result)))
    ∧ (respFails r1 = true → fails2resp r2 = true → fails3resp r3 = true →
        (getLabelsWithFallbacks2 9 (some "pw") (r1 :: r2 :: r3 :: rest) []).1
          = Except.ok (.arr [])) := by
  rw [glf2_eval r1 r2 r3 rest h1 h2 h3]
  by_cases hf1 : respFails r1 = true
  · by_cases hf2 : fails2resp r2 = true
    · by_cases hf3 : fails3resp r3 = true
      · simp [hf1, hf2, hf3, rpcMethods]
      · simp [hf1, hf2, hf3, rpcMethods]
    · simp [hf1, hf2, rpcMethods]
  · simp only [hf1, Bool.false_eq_true, if_false, rpcMethods]
    refine ⟨⟨_, rfl⟩, ?_, ?_, ?_⟩
    · simp [hf1]
    · intro h
      exact h.elim
    · intro h
      exact h.elim

/-- C9 witness: the first shape fails with a server error, the second
resolves without a labels array, the third succeeds with labels Movies and
TV, which are returned. -/
theorem getLabelsWithFallbacks2_chain_witness :
    (httpOk (errBody "Unknown method") = true
      ∧ httpOk (okResp (.obj [])) = true
      ∧ httpOk (okResp (.obj [("id1", .obj [("name", .str "Movies")]),
          ("id2", .obj [("name", .str "TV")])])) = true
      ∧ respFails (errBody "Unknown method") = true
      ∧ fails2resp (okResp (.obj [])) = true
      ∧ fails3resp (okResp (.obj [("id1", .obj [("name", .str "Movies")]),
          ("id2", .obj [("name", .str "TV")])])) = false)
    ∧ (getLabelsWithFallbacks2 9 (some "pw")
        [errBody "Unknown method", okResp (.obj []),
         okResp (.obj [("id1", .obj [("name", .str "Movies")]), ("id2", .obj [("name", .str "TV")])])] []).1
      = Except.ok (.arr [.str "Movies", .str "TV"]) :=
  ⟨⟨rfl, rfl, rfl, rfl, rfl, rfl⟩,
    (getLabelsWithFallbacks2_chain (errBody "Unknown method") (okResp (.obj []))
      (okResp (.obj [("id1", .obj [("name", .str "Movies")]), ("id2", .obj [("name", .str "TV")])]))
      [] rfl rfl rfl).2.2.1 rfl rfl rfl⟩

/-- Processing a host that reaches a connected state consumes exactly its
own responses, records exactly its own calls and resolves with its
adoption value. -/
theorem tryHost2_ok (rows : List RVal) (h : HostSpec) (s : Script) (t : Trace)
    (hv : validStatus h = true) (hs : hostSucceeds h = true) :
    tryHost2 9 (some "pw") rows (hostRow h) (hostScript h ++ s) t
      = (Except.ok (adoptVal rows h), s, t ++ hostCalls h) := by
  by_cases hC : h.status = "Connected"
  · simp [tryHost2, getHostStatus2, request2, bindR, isAuthError2, hostScript, hostCalls,
      statusResp, okResp, httpOk, elemAt, hostRow, adoptVal, RVal.truthy, hC]
  · by_cases hO : h.status = "Online"
    · have hc : h.connectOk = true := by
        simp [hostSucceeds, hO] at hs
        exact hs
      simp [tryHost2, getHostStatus2, connectDaemon2, request2, bindR, isAuthError2, hostScript,
        hostCalls, statusResp, boolResp, okResp, httpOk, elemAt, hostRow, adoptVal, RVal.truthy,
        hO, hc, hC]
    · by_cases hF : h.status = "Offline"
      · have hsc : h.startOk = true ∧ h.connectOk = true := by
          simp [hostSucceeds, hF, hC, hO] at hs
          exact hs
        simp [tryHost2, getHostStatus2, connectDaemon2, startDaemon2, request2, bindR, isAuthError2,
          hostScript, hostCalls, statusResp, boolResp, okResp, httpOk, elemAt, hostRow, adoptVal,
          RVal.truthy, hF, hsc.1, hsc.2, hC, hO]
      · simp [validStatus, hC, hO, hF] at hv

/-- Processing a host that fails to reach a connected state consumes
exactly its own responses, records exactly its own calls and rejects. -/
theorem tryHost2_fail (rows : List RVal) (h : HostSpec) (s : Script) (t : Trace)
    (hv : validStatus h = true) (hs : hostSucceeds h = false) :
    ∃ e, tryHost2 9 (some "pw") rows (hostRow h) (hostScript h ++ s) t
      = (Except.error e, s, t ++ hostCalls h) := by
  by_cases hC : h.status = "Connected"
  · simp [hostSucceeds, hC] at hs
  · by_cases hO : h.status = "Online"
    · have hc : h.connectOk = false := by
        simp [hostSucceeds, hO] at hs
        exact hs
      refine ⟨errMsg "connect failed", ?_⟩
      simp [tryHost2, getHostStatus2, connectDaemon2, request2, bindR, isAuthError2, hostScript,
        hostCalls, statusResp, boolResp, okResp, errBody, httpOk, elemAt, hostRow, RVal.truthy,
        hO, hc, hC]
    · by_cases hF : h.status = "Offline"
      · cases hst : h.startOk
        · refine ⟨errMsg "start failed", ?_⟩
          simp [tryHost2, getHostStatus2, connectDaemon2, startDaemon2, request2, bindR,
            isAuthError2, hostScript, hostCalls, statusResp, boolResp, okResp, errBody, httpOk,
            elemAt, hostRow, RVal.truthy, hF, hst, hC, hO]
        · have hc : h.connectOk = false := by
            simp [hostSucceeds, hF, hC, hO, hst] at hs
            exact hs
          refine ⟨errMsg "connect failed", ?_⟩
          simp [tryHost2, getHostStatus2, connectDaemon2, startDaemon2, request2, bindR,
            isAuthError2, hostScript, hostCalls, statusResp, boolResp, okResp, errBody, httpOk,
            elemAt, hostRow, RVal.truthy, hF, hst, hc, hC, hO]
      · simp [validStatus, hC, hO, hF] at hv

/-- Once the accumulated promise is resolved, every later host handler is
skipped entirely: no call, no response consumed. -/
theorem goHosts2_ok (rows : List RVal) (items : List RVal) (v : Adopt) (s : Script) (t : Trace) :
    goHosts2 9 (some "pw") rows items (Except.ok v, s, t) = (Except.ok v, s, t) := by
  induction items with
  | nil => rfl
  | cons row rest ih => simpa [goHosts2] using ih

/-- The sequential fold of the locator: with every host before `h` failing
and `h` reaching a connected state, the fold adopts `h`, consumes exactly
the responses of the prefix and of `h`, records exactly their calls in
list order, and issues nothing for the hosts after `h`. -/
theorem goHosts2_eval (rows : List RVal) (pre : List HostSpec) (h : HostSpec)
    (post : List HostSpec) (rest : Script) (t : Trace) (e0 : JErr)
    (hvpre : ∀ g ∈ pre, validStatus g = true)
    (hfpre : ∀ g ∈ pre, hostSucceeds g = false)
    (hv : validStatus h = true) (hs : hostSucceeds h = true) :
    goHosts2 9 (some "pw") rows ((pre ++ h :: post).map hostRow)
        (Except.error e0, hostsScript (pre ++ h :: post) ++ rest, t)
      = (Except.ok (adoptVal rows h), hostsScript post ++ rest, t ++ (hostsCalls pre ++ hostCalls h)) := by
  induction pre generalizing t e0 with
  | nil =>
    have e1 := tryHost2_ok rows h ((post.map hostScript).flatten ++ rest) t hv hs
    simp only [List.nil_append, List.map_cons, goHosts2, hostsScript, List.flatten_cons,
      List.append_assoc]
    rw [e1, goHosts2_ok]
    simp [hostsCalls]
  | cons g pre ih =>
    have hvg : validStatus g = true := hvpre g (List.mem_cons_self g pre)
    have hfg : hostSucceeds g = false := hfpre g (List.mem_cons_self g pre)
    obtain ⟨e, he⟩ :=
      tryHost2_fail rows g (hostsScript (pre ++ h :: post) ++ rest) t hvg hfg
    have he2 : tryHost2 9 (some "pw") rows (hostRow g)
        (hostScript g ++ ((((pre ++ h :: post).map hostScript).flatten) ++ rest)) t
        = (Except.error e, hostsScript (pre ++ h :: post) ++ rest, t ++ hostCalls g) := he
    simp only [List.cons_append, List.map_cons, goHosts2, hostsScript, List.flatten_cons,
      List.append_assoc, List.append_eq] at he2 ⊢
    rw [he2]
    have ih2 := ih (t ++ hostCalls g) e (fun x hx => hvpre x (List.mem_cons_of_mem g hx))
      (fun x hx => hfpre x (List.mem_cons_of_mem g hx))
    simp only [hostsScript, List.append_assoc] at ih2
    rw [ih2]
    simp [hostsCalls]

/-- C3.  The second-generation daemon locator tries hosts strictly in list
order and sequentially: over every host list split as `pre ++ h :: post`
with every host of `pre` failing and `h` the first host that reaches a
connected state (Connected directly; Online via one connect call; Offline
via a start call then a connect call), and with no cached daemon, the
locator adopts `h`, the recorded calls are exactly those of the failed
prefix followed by those of `h` in list order, and no call at all is
issued for any host in `post` (their planned responses are returned
unconsumed). -/
theorem getConnectedDaemon2_first_success_in_order
    (pre : List HostSpec) (h : HostSpec) (post : List HostSpec) (rest : Script)
    (hvpre : ∀ g ∈ pre, validStatus g = true)
    (hfpre : ∀ g ∈ pre, hostSucceeds g = false)
    (hv : validStatus h = true) (hs : hostSucceeds h = true) :
    getConnectedDaemon2 9 (some "pw") none (.arr (hostsRows (pre ++ h :: post)))
        (hostsScript (pre ++ h :: post) ++ rest) []
      = (Except.ok (adoptVal (hostsRows (pre ++ h :: post)) h),
         hostsScript post ++ rest, hostsCalls pre ++ hostCalls h) := by
  have main := goHosts2_eval (hostsRows (pre ++ h :: post)) pre h post rest []
    (errMsg "Starting daemon connection attempts") hvpre hfpre hv hs
  cases pre with
  | nil =>
    simp only [List.nil_append, hostsRows, List.map_cons] at main ⊢
    simpa [getConnectedDaemon2, cacheHit] using main
  | cons g pre2 =>
    simp only [List.cons_append, hostsRows, List.map_cons] at main ⊢
    simpa [getConnectedDaemon2, cacheHit] using main

/-- C3 witness: an Online host whose connect call fails, then an Offline
host that starts and connects (adopted), then a Connected host that is
never contacted. -/
theorem getConnectedDaemon2_first_success_in_order_witness :
    ((∀ g ∈ [HostSpec.mk "h1" "Online" true false], validStatus g = true)
      ∧ (∀ g ∈ [HostSpec.mk "h1" "Online" true false], hostSucceeds g = false)
      ∧ validStatus (HostSpec.mk "h2" "Offline" true true) = true
      ∧ hostSucceeds (HostSpec.mk "h2" "Offline" true true) = true)
    ∧ getConnectedDaemon2 9 (some "pw") none
        (.arr (hostsRows ([HostSpec.mk "h1" "Online" true false]
          ++ HostSpec.mk "h2" "Offline" true true :: [HostSpec.mk "h3" "Connected" true true])))
        (hostsScript ([HostSpec.mk "h1" "Online" true false]
          ++ HostSpec.mk "h2" "Offline" true true :: [HostSpec.mk "h3" "Connected" true true]) ++ []) []
      = (Except.ok (adoptVal (hostsRows ([HostSpec.mk "h1" "Online" true false]
            ++ HostSpec.mk "h2" "Offline" true true :: [HostSpec.mk "h3" "Connected" true true]))
            (HostSpec.mk "h2" "Offline" true true)),
         hostsScript [HostSpec.mk "h3" "Connected" true true] ++ [],
         hostsCalls [HostSpec.mk "h1" "Online" true false]
           ++ hostCalls (HostSpec.mk "h2" "Offline" true true)) :=
  ⟨⟨by decide, by decide, rfl, rfl⟩,
    getConnectedDaemon2_first_success_in_order [HostSpec.mk "h1" "Online" true false]
      (HostSpec.mk "h2" "Offline" true true) [HostSpec.mk "h3" "Connected" true true] []
      (by decide) (by decide) rfl rfl⟩
